import Mathlib

/-!
# Verification of the `plag` metadata-to-geometry pipeline

Shallow embedding of `src/main.rs` (the `plag` tool: extract GPS location
from photo EXIF metadata into GeoJSON).

Modelling conventions:
* `f64` values are modelled as exact rationals (`ℚ`); the source performs
  `degrees + min/60.0 + sec/3600.0` on `f64`, here computed exactly.
* Rust `Result<T, Error>` is `Except Error T`.
* A Rust panic (out-of-bounds index, `Option::unwrap` on `None`) is
  modelled by `Option`: `none` is a panic, `some r` a normal return `r`.
* The EXIF reader (library type `exif::Reader`) is modelled as a lookup
  function from tags to field values; `reader.get_field(tag, false)` is
  function application.  Only the tags and value shapes the program
  touches are distinguished; every other `exif::Value` variant collapses
  into `ExifValue.Other`, since the source handles them all by the same
  catch-all match arms.
* File-system and decode outcomes (`File::open`, `Reader::new`,
  `Path::canonicalize`) are environment inputs carried by the `Source`
  structure.
-/

/-- EXIF tags used by the program (`exif::Tag`). -/
inductive Tag where
  | GPSLatitude
  | GPSLatitudeRef
  | GPSLongitude
  | GPSLongitudeRef
  | DateTimeOriginal
  deriving DecidableEq, Repr

/-- Unsigned EXIF rational (`exif::Rational`): numerator / denominator, both `u32`. -/
structure URational where
  num : Nat
  den : Nat
  deriving DecidableEq, Repr

/-- Embeds `exif::Rational::to_f64`: `num as f64 / denom as f64`, modelled exactly in `ℚ`.
(For `den = 0` the Rust value is `inf`/NaN; in `ℚ` division by zero yields `0`.
No claim in this development touches that case.) -/
def URational.to_f64 (x : URational) : ℚ :=
  (x.num : ℚ) / (x.den : ℚ)

/-- EXIF field payload (`exif::Value`).  `Ascii` holds a vector of byte
strings (`Vec<&[u8]>`), bytes as `Nat`.  `Other` stands for every remaining
`exif::Value` variant (Byte, Short, Long, SRational, …), which the source
treats identically through catch-all arms. -/
inductive ExifValue where
  | Rational (dms : List URational)
  | Ascii (components : List (List Nat))
  | Other
  deriving DecidableEq, Repr

/-- The decoded metadata record: `exif::Reader` restricted to field lookup,
`reader.get_field(tag, false)` becomes `r tag`. -/
def Reader := Tag → Option ExifValue

/-- The program's error type (`enum Error` in `main.rs`).  Payloads that the
program never inspects (`std::io::Error`, `std::str::Utf8Error`,
`exif::Error`) are dropped. -/
inductive Error where
  | IoError
  | Utf8Error
  | FieldMissing (tag : Tag)
  | InvalidField (tag : Tag) (msg : String)
  | ExifError
  deriving DecidableEq, Repr

instance {ε α : Type} [DecidableEq ε] [DecidableEq α] : DecidableEq (Except ε α)
  | .error a, .error b =>
      if h : a = b then isTrue (by rw [h])
      else isFalse (by intro hc; injection hc; contradiction)
  | .error _, .ok _ => isFalse (by intro hc; cases hc)
  | .ok _, .error _ => isFalse (by intro hc; cases hc)
  | .ok a, .ok b =>
      if h : a = b then isTrue (by rw [h])
      else isFalse (by intro hc; injection hc; contradiction)

/-- Rust `str::ends_with(suffix)`: byte-suffix test; for valid UTF-8 this
coincides with the character-suffix test (a valid UTF-8 suffix can only
start on a character boundary), stated here on the character lists so that
it evaluates structurally. -/
def ends_with (s suffix : String) : Bool :=
  suffix.data.isSuffixOf s.data

/-- Embeds `fn get_degrees(reader, tag) -> Result<f64>`:
requires the field to be exactly three rationals `[degrees, minutes, seconds]`
and returns `degrees + min/60.0 + sec/3600.0`. -/
def get_degrees (reader : Reader) (tag : Tag) : Except Error ℚ :=
  match reader tag with
  | none => .error (.FieldMissing tag)
  | some (.Rational dms) =>
      if h : dms.length = 3 then
        let degrees := (dms.get ⟨0, by omega⟩).to_f64
        let min := (dms.get ⟨1, by omega⟩).to_f64
        let sec := (dms.get ⟨2, by omega⟩).to_f64
        .ok (degrees + min / 60 + sec / 3600)
      else
        .error (.InvalidField tag ("expected 3 rationals"))
  | some _ => .error (.InvalidField tag ("invalid field type"))

/-- Is `b` a UTF-8 continuation byte (`0x80..=0xBF`)? -/
def isContByte (b : Nat) : Bool :=
  0x80 ≤ b && b ≤ 0xBF

/-- A UTF-8 decoder validating exactly the well-formed sequences accepted by
Rust's `std::str::from_utf8` (RFC 3629: no overlong forms, no surrogates,
max `U+10FFFF`).  Structural recursion on a fuel bound (one unit per
decoded character), so concrete evaluation reduces in the kernel. -/
def utf8DecodeFuel : Nat → List Nat → Option (List Char)
  | _, [] => some []
  | 0, _ :: _ => none
  | fuel + 1, b :: rest =>
    if b < 0x80 then
      (utf8DecodeFuel fuel rest).map (fun cs => Char.ofNat b :: cs)
    else if 0xC2 ≤ b && b ≤ 0xDF then
      match rest with
      | b1 :: rest1 =>
        if isContByte b1 then
          (utf8DecodeFuel fuel rest1).map
            (fun cs => Char.ofNat ((b % 0x20) * 0x40 + b1 % 0x40) :: cs)
        else none
      | [] => none
    else if b == 0xE0 then
      match rest with
      | b1 :: b2 :: rest2 =>
        if (0xA0 ≤ b1 && b1 ≤ 0xBF) && isContByte b2 then
          (utf8DecodeFuel fuel rest2).map
            (fun cs => Char.ofNat ((b % 0x10) * 0x1000 + (b1 % 0x40) * 0x40 + b2 % 0x40) :: cs)
        else none
      | _ => none
    else if (0xE1 ≤ b && b ≤ 0xEC) || b == 0xEE || b == 0xEF then
      match rest with
      | b1 :: b2 :: rest2 =>
        if isContByte b1 && isContByte b2 then
          (utf8DecodeFuel fuel rest2).map
            (fun cs => Char.ofNat ((b % 0x10) * 0x1000 + (b1 % 0x40) * 0x40 + b2 % 0x40) :: cs)
        else none
      | _ => none
    else if b == 0xED then
      match rest with
      | b1 :: b2 :: rest2 =>
        if (0x80 ≤ b1 && b1 ≤ 0x9F) && isContByte b2 then
          (utf8DecodeFuel fuel rest2).map
            (fun cs => Char.ofNat ((b % 0x10) * 0x1000 + (b1 % 0x40) * 0x40 + b2 % 0x40) :: cs)
        else none
      | _ => none
    else if b == 0xF0 then
      match rest with
      | b1 :: b2 :: b3 :: rest3 =>
        if (0x90 ≤ b1 && b1 ≤ 0xBF) && (isContByte b2 && isContByte b3) then
          (utf8DecodeFuel fuel rest3).map
            (fun cs => Char.ofNat ((b % 8) * 0x40000 + (b1 % 0x40) * 0x1000
              + (b2 % 0x40) * 0x40 + b3 % 0x40) :: cs)
        else none
      | _ => none
    else if 0xF1 ≤ b && b ≤ 0xF3 then
      match rest with
      | b1 :: b2 :: b3 :: rest3 =>
        if isContByte b1 && (isContByte b2 && isContByte b3) then
          (utf8DecodeFuel fuel rest3).map
            (fun cs => Char.ofNat ((b % 8) * 0x40000 + (b1 % 0x40) * 0x1000
              + (b2 % 0x40) * 0x40 + b3 % 0x40) :: cs)
        else none
      | _ => none
    else if b == 0xF4 then
      match rest with
      | b1 :: b2 :: b3 :: rest3 =>
        if (0x80 ≤ b1 && b1 ≤ 0x8F) && (isContByte b2 && isContByte b3) then
          (utf8DecodeFuel fuel rest3).map
            (fun cs => Char.ofNat ((b % 8) * 0x40000 + (b1 % 0x40) * 0x1000
              + (b2 % 0x40) * 0x40 + b3 % 0x40) :: cs)
        else none
      | _ => none
    else none

/-- Embeds `std::str::from_utf8` followed by `.map_err(|err| err.into())`:
decodes a byte string or fails with `Error::Utf8Error`. -/
def from_utf8 (bytes : List Nat) : Except Error String :=
  match utf8DecodeFuel bytes.length bytes with
  | some cs => .ok (String.mk cs)
  | none => .error .Utf8Error

/-- Embeds `fn get_string(reader, tag) -> Result<&str>`: looks the field up, demands
`Value::Ascii`, then reads component `s[0]` and UTF-8-decodes it.  The `s[0]`
index is unconditional in the source, so an `Ascii` value with zero
components panics — modelled as `none`. -/
def get_string (reader : Reader) (tag : Tag) : Option (Except Error String) :=
  match reader tag with
  | none => some (.error (.FieldMissing tag))
  | some (.Ascii s) =>
      match s with
      | [] => none
      | b :: _ => some (from_utf8 b)
  | some _ => some (.error (.InvalidField tag ("field is not a string")))

/-- Embeds `fn get_latitude(reader) -> Result<f64>`: degrees magnitude of
`GPSLatitude`, negated when the `GPSLatitudeRef` text ends with `"S"`. -/
def get_latitude (reader : Reader) : Option (Except Error ℚ) :=
  match get_degrees reader .GPSLatitude with
  | .error e => some (.error e)
  | .ok latitude =>
    match get_string reader .GPSLatitudeRef with
    | none => none
    | some (.error e) => some (.error e)
    | some (.ok ref) =>
        some (.ok (if ends_with ref ("S") then -latitude else latitude))

/-- Embeds `fn get_longitude(reader) -> Result<f64>`: degrees magnitude of
`GPSLongitude`, negated when the `GPSLongitudeRef` text ends with `"W"`. -/
def get_longitude (reader : Reader) : Option (Except Error ℚ) :=
  match get_degrees reader .GPSLongitude with
  | .error e => some (.error e)
  | .ok longitude =>
    match get_string reader .GPSLongitudeRef with
    | none => none
    | some (.error e) => some (.error e)
    | some (.ok ref) =>
        some (.ok (if ends_with ref ("W") then -longitude else longitude))

/-- The closed `enum Property` of requestable per-photo properties. -/
inductive Property where
  | Filename
  | Path
  | Datetime
  deriving DecidableEq, Repr

/-- The `Display` impl for `Property`: its canonical key name. -/
def Property.to_string : Property → String
  | .Filename => "filename"
  | .Path => "path"
  | .Datetime => "datetime"

/-- Split a character list at every occurrence of `sep` (the semantics of
`String.splitOn` for a single-character separator, stated structurally). -/
def splitOnChar (sep : Char) : List Char → List (List Char)
  | [] => [[]]
  | c :: rest =>
    let r := splitOnChar sep rest
    if c = sep then
      [] :: r
    else
      match r with
      | g :: gs => (c :: g) :: gs
      | [] => [[c]]

/-- Unix path components as used by Rust `Path`: split on `/`, drop empty
and `.` components. -/
def pathComponents (path : String) : List String :=
  ((splitOnChar '/' path.data).map String.mk).filter (fun c => c != "" && c != ".")

/-- Rust `Path::file_name`: the last component when it is a normal one,
`None` when the path ends in `..`, is a root, or has no components. -/
def file_name (path : String) : Option String :=
  match (pathComponents path).getLast? with
  | some c => if c = ".." then none else some c
  | none => none

/-- One input photo together with its environment-determined outcomes.
`path` is the command-line path (modelled as text; `to_string_lossy` on
valid Unicode is the identity).  `openFile` is the outcome of
`std::fs::File::open`, `readExif` of `exif::Reader::new`, and
`canonicalizePath` of `Path::canonicalize` — all decided by the file
system / file contents, so they are data of the model. -/
structure Source where
  path : String
  openFile : Except Error Unit
  readExif : Except Error Reader
  canonicalizePath : Except Error String

/-- Embeds `geo_types::Point<f64>`: `x` is longitude, `y` is latitude. -/
structure Point where
  x : ℚ
  y : ℚ
  deriving DecidableEq, Repr

/-- Embeds `(longitude, latitude).into()`: the tuple-to-`Point` conversion,
first component `x`, second `y`. -/
def pointFromPair (p : ℚ × ℚ) : Point :=
  { x := p.1, y := p.2 }

/-- Embeds `geojson::Value::from(&point)`: a GeoJSON `Point` geometry's coordinate
array `[x, y]`. -/
def pointCoordinates (p : Point) : List ℚ :=
  [p.x, p.y]

/-- Embeds `geojson::Feature` as the program builds it: every field the library
makes optional stays optional here.  Property values are strings
(`serde_json::to_value` of a string never fails, so the source's
`value.unwrap()` is safe and values stay `String`). -/
structure Feature where
  bbox : Option Unit
  geometry : Option (List ℚ)
  id : Option Unit
  properties : Option (List (String × String))
  foreign_members : Option Unit
  deriving DecidableEq, Repr

/-- Embeds `serde_json::Map::insert`: replace the value under an existing key,
otherwise add the pair. -/
def mapInsert : List (String × String) → String → String → List (String × String)
  | [], k, v => [(k, v)]
  | (k', v') :: rest, k, v =>
      if k' = k then (k, v) :: rest else (k', v') :: mapInsert rest k v

/-- Lookup in a `serde_json::Map`. -/
def mapLookup : List (String × String) → String → Option String
  | [], _ => none
  | (k', v') :: rest, k => if k' = k then some v' else mapLookup rest k

/-- The body of the property loop in `get_feature`: the value for one
selector.  `Filename` is `filename.file_name().unwrap().to_string_lossy()`
(the `unwrap` panics — `none` — when the path has no base name component);
`Path` is `filename.canonicalize()?`; `Datetime` is
`get_string(&reader, Tag::DateTimeOriginal)?`. -/
def propValue (src : Source) (reader : Reader) : Property → Option (Except Error String)
  | .Filename =>
      match file_name src.path with
      | none => none
      | some n => some (.ok n)
  | .Path =>
      match src.canonicalizePath with
      | .error e => some (.error e)
      | .ok p => some (.ok p)
  | .Datetime => get_string reader .DateTimeOriginal

/-- The property loop of `get_feature`: walk the selectors in order,
inserting each value under the selector's canonical name; any selector's
error aborts (the `?` operators), any panic propagates. -/
def buildProps (src : Source) (reader : Reader) :
    List Property → List (String × String) → Option (Except Error (List (String × String)))
  | [], props => some (.ok props)
  | p :: rest, props =>
    match propValue src reader p with
    | none => none
    | some (.error e) => some (.error e)
    | some (.ok v) => buildProps src reader rest (mapInsert props p.to_string v)

/-- Embeds `fn get_feature(filename, properties) -> Result<Feature>`: open the
file, decode EXIF, extract latitude then longitude, build the point and the
property map, and assemble the `Feature` literal of the source. -/
def get_feature (src : Source) (properties : List Property) : Option (Except Error Feature) :=
  match src.openFile with
  | .error e => some (.error e)
  | .ok _ =>
  match src.readExif with
  | .error e => some (.error e)
  | .ok reader =>
  match get_latitude reader with
  | none => none
  | some (.error e) => some (.error e)
  | some (.ok latitude) =>
  match get_longitude reader with
  | none => none
  | some (.error e) => some (.error e)
  | some (.ok longitude) =>
  let point := pointFromPair (longitude, latitude)
  match buildProps src reader properties [] with
  | none => none
  | some (.error e) => some (.error e)
  | some (.ok props) =>
      some (.ok { bbox := none
                  geometry := some (pointCoordinates point)
                  id := none
                  properties := some props
                  foreign_members := none })

/-- One arm of the `--properties` match in `main`: a requested name to a
selector, `none` for an unknown name (the `exit(1)` arm). -/
def parseProperty : String → Option Property
  | "filename" => some .Filename
  | "path" => some .Path
  | "datetime" => some .Datetime
  | _ => none

/-- The `--properties` validation loop in `main`: selectors in request
order, or the first unknown name (on which the program exits before
touching any source). -/
def parseProperties : List String → Except String (List Property)
  | [] => .ok []
  | p :: rest =>
    match parseProperty p with
    | some prop => (parseProperties rest).map (fun props => prop :: props)
    | none => .error p

/-- The `filter_map` over input files in `main`: successes are collected in
order, each failure prints one diagnostic line (`"{path}: {error}"`,
modelled as the pair) and is dropped.  A panic inside `get_feature` aborts
the whole process (`none`). -/
def processFiles (props : List Property) :
    List Source → Option (List Feature × List (String × Error))
  | [] => some ([], [])
  | f :: rest =>
    match get_feature f props with
    | none => none
    | some (.ok feat) =>
        (processFiles props rest).map (fun r => (feat :: r.1, r.2))
    | some (.error e) =>
        (processFiles props rest).map (fun r => (r.1, (f.path, e) :: r.2))

/-- The observable outcome of a run of `main` (the outcome of the parts in
scope: argument-driven property validation and the per-file pipeline). -/
inductive MainResult where
  | exitUnknownProperty (name : String)
  | output (features : List Feature) (diagnostics : List (String × Error))
  deriving DecidableEq, Repr

/-- Embeds `fn main` after argument parsing: `requested` is the `--properties`
list when the flag is given; `files` the (non-empty, but not enforced here)
ordered input list.  `none` is a panic. -/
def runMain (requested : Option (List String)) (files : List Source) : Option MainResult :=
  match requested with
  | some ps =>
    match parseProperties ps with
    | .error name => some (.exitUnknownProperty name)
    | .ok props => (processFiles props files).map (fun r => .output r.1 r.2)
  | none => (processFiles [] files).map (fun r => .output r.1 r.2)

/-- Specification-side view of the aggregator's success list: the features
of the successfully processed sources, in input order. -/
def successFeatures (props : List Property) (files : List Source) : List Feature :=
  files.filterMap fun f =>
    match get_feature f props with
    | some (.ok feat) => some feat
    | _ => none

/-- Specification-side view of the aggregator's diagnostics: one entry per
failed source, in input order. -/
def failureDiagnostics (props : List Property) (files : List Source) : List (String × Error) :=
  files.filterMap fun f =>
    match get_feature f props with
    | some (.error e) => some (f.path, e)
    | _ => none

/-- The last selector in the list whose canonical name is `name`
(specification-side: the occurrence whose value survives the
later-overwrites-earlier property-map construction). -/
def lastWithName (name : String) : List Property → Option Property
  | [] => none
  | p :: rest =>
    match lastWithName name rest with
    | some q => some q
    | none => if p.to_string = name then some p else none

/-- The value a selector contributed, when it returned one normally. -/
def okValue : Option (Except Error String) → Option String
  | some (.ok v) => some v
  | _ => none

/-- A decoded record as produced from a well-formed photo:
latitude 40° 26′ 46″ N, longitude 79° 56′ 55″ W, timestamp `"2018"`
(`[78] = "N"`, `[87] = "W"`, `[50,48,49,56] = "2018"` as UTF-8 bytes). -/
def readerW : Reader := fun t =>
  match t with
  | .GPSLatitude => some (.Rational [⟨40, 1⟩, ⟨26, 1⟩, ⟨46, 1⟩])
  | .GPSLatitudeRef => some (.Ascii [[78]])
  | .GPSLongitude => some (.Rational [⟨79, 1⟩, ⟨56, 1⟩, ⟨55, 1⟩])
  | .GPSLongitudeRef => some (.Ascii [[87]])
  | .DateTimeOriginal => some (.Ascii [[50, 48, 49, 56]])

/-- A source that opens and decodes successfully to `readerW`. -/
def srcW : Source :=
  { path := "photos/a.jpg"
    openFile := .ok ()
    readExif := .ok readerW
    canonicalizePath := .ok ("/photos/a.jpg") }

/-- A record with `GPSLatitude` holding only two rationals. -/
def readerTwoRationals : Reader := fun t =>
  match t with
  | .GPSLatitude => some (.Rational [⟨1, 1⟩, ⟨2, 1⟩])
  | _ => none

/-- A record with no fields at all (every tag missing). -/
def readerEmpty : Reader := fun _ => none

/-- A source that opens and decodes successfully to `readerEmpty`. -/
def srcNoTags : Source :=
  { path := "e.jpg"
    openFile := .ok ()
    readExif := .ok readerEmpty
    canonicalizePath := .ok ("/e.jpg") }

/-- A source whose `File::open` already fails. -/
def srcUnreadable : Source :=
  { path := "bad.jpg"
    openFile := .error .IoError
    readExif := .error .IoError
    canonicalizePath := .error .IoError }

/-- A source that decodes to `readerW` but whose command-line path `".."`
has no base name component (`Path::file_name` is `None`). -/
def srcDotDot : Source :=
  { path := ".."
    openFile := .ok ()
    readExif := .ok readerW
    canonicalizePath := .ok ("/") }

/-- A record whose `DateTimeOriginal` is an `Ascii` value with zero
component strings. -/
def readerEmptyAscii : Reader := fun t =>
  match t with
  | .DateTimeOriginal => some (.Ascii [])
  | _ => none

/-! ## Helper lemmas -/

theorem mapLookup_mapInsert_self (m : List (String × String)) (k v : String) :
    mapLookup (mapInsert m k v) k = some v := by
  induction m with
  | nil => simp [mapInsert, mapLookup]
  | cons kv rest ih =>
      by_cases h : kv.1 = k <;> simp [mapInsert, mapLookup, h, ih]

theorem mapLookup_mapInsert_ne (m : List (String × String)) (k v k' : String)
    (h : k ≠ k') : mapLookup (mapInsert m k v) k' = mapLookup m k' := by
  induction m with
  | nil => simp [mapInsert, mapLookup, h]
  | cons kv rest ih =>
      by_cases hk : kv.1 = k
      · simp [mapInsert, mapLookup, hk, h, ih]
      · by_cases hk' : kv.1 = k' <;>
          simp [mapInsert, mapLookup, hk, hk', h, Ne.symm h, ih]

theorem buildProps_lookup (src : Source) (reader : Reader) (name : String) :
    ∀ (selectors : List Property) (acc m : List (String × String)),
      buildProps src reader selectors acc = some (.ok m) →
      mapLookup m name =
        match lastWithName name selectors with
        | some p => okValue (propValue src reader p)
        | none => mapLookup acc name := by
  intro selectors
  induction selectors with
  | nil =>
      intro acc m h
      simp [buildProps] at h
      simp [lastWithName, h]
  | cons p rest ih =>
      intro acc m h
      unfold buildProps at h
      cases hpv : propValue src reader p with
      | none => rw [hpv] at h; cases h
      | some r =>
        cases r with
        | error e => rw [hpv] at h; cases h
        | ok v =>
          rw [hpv] at h
          have ihm := ih (mapInsert acc p.to_string v) m h
          by_cases hname : p.to_string = name
          · cases hlast : lastWithName name rest with
            | some q => simp [lastWithName, hlast, ihm]
            | none =>
                simp only [lastWithName, hlast, ihm, hname]
                simp [mapLookup_mapInsert_self, okValue, hpv, hname]
          · cases hlast : lastWithName name rest with
            | some q => simp [lastWithName, hlast, ihm]
            | none =>
                simp only [lastWithName, hlast, ihm, hname]
                simp [hname, mapLookup_mapInsert_ne _ _ _ _ hname]

theorem processFiles_eq_of_no_abort (props : List Property) :
    ∀ files : List Source, (∀ f ∈ files, get_feature f props ≠ none) →
      processFiles props files =
        some (successFeatures props files, failureDiagnostics props files) := by
  intro files
  induction files with
  | nil => intro _; rfl
  | cons f rest ih =>
      intro hnp
      have hrest := fun g hg => hnp g (List.mem_cons_of_mem f hg)
      cases hf : get_feature f props with
      | none => exact absurd hf (hnp f (List.mem_cons_self f rest))
      | some r =>
        cases r with
        | ok feat =>
            simp [processFiles, successFeatures, failureDiagnostics, hf, ih hrest,
              successFeatures, failureDiagnostics]
        | error e =>
            simp [processFiles, successFeatures, failureDiagnostics, hf, ih hrest]

theorem parseProperties_first_unknown (ps : List String) (name : String)
    (hmem : name ∈ ps) (hunknown : parseProperty name = none) :
    ∃ bad, bad ∈ ps ∧ parseProperty bad = none ∧ parseProperties ps = .error bad := by
  induction ps with
  | nil => cases hmem
  | cons p rest ih =>
      cases hp : parseProperty p with
      | none => exact ⟨p, List.mem_cons_self p rest, hp, by simp [parseProperties, hp]⟩
      | some prop =>
          have hname : name ∈ rest := by
            rcases List.mem_cons.mp hmem with h | h
            · rw [h, hp] at hunknown; cases hunknown
            · exact h
          obtain ⟨bad, h1, h2, h3⟩ := ih hname
          exact ⟨bad, List.mem_cons_of_mem p h1, h2,
            by simp [parseProperties, hp, h3, Except.map]⟩

theorem get_feature_ok_elim (src : Source) (props : List Property) (reader : Reader)
    (feat : Feature)
    (hopen : src.openFile = .ok ()) (hexif : src.readExif = .ok reader)
    (hfeat : get_feature src props = some (.ok feat)) :
    ∃ lat lon m, get_latitude reader = some (.ok lat) ∧
      get_longitude reader = some (.ok lon) ∧
      buildProps src reader props [] = some (.ok m) ∧
      feat = { bbox := none, geometry := some [lon, lat], id := none,
               properties := some m, foreign_members := none } := by
  cases hlat : get_latitude reader with
  | none =>
      have hz : get_feature src props = none := by
        simp [get_feature, hopen, hexif, hlat]
      rw [hz] at hfeat; cases hfeat
  | some rlat =>
    cases rlat with
    | error e =>
        have hz : get_feature src props = some (.error e) := by
          simp [get_feature, hopen, hexif, hlat]
        rw [hz] at hfeat; simp at hfeat
    | ok lat =>
      cases hlon : get_longitude reader with
      | none =>
          have hz : get_feature src props = none := by
            simp [get_feature, hopen, hexif, hlat, hlon]
          rw [hz] at hfeat; cases hfeat
      | some rlon =>
        cases rlon with
        | error e =>
            have hz : get_feature src props = some (.error e) := by
              simp [get_feature, hopen, hexif, hlat, hlon]
            rw [hz] at hfeat; simp at hfeat
        | ok lon =>
          cases hbp : buildProps src reader props [] with
          | none =>
              have hz : get_feature src props = none := by
                simp [get_feature, hopen, hexif, hlat, hlon, hbp]
              rw [hz] at hfeat; cases hfeat
          | some rbp =>
            cases rbp with
            | error e =>
                have hz : get_feature src props = some (.error e) := by
                  simp [get_feature, hopen, hexif, hlat, hlon, hbp]
                rw [hz] at hfeat; simp at hfeat
            | ok m =>
              have hz : get_feature src props = some (.ok
                  { bbox := none, geometry := some [lon, lat], id := none,
                    properties := some m, foreign_members := none }) := by
                simp [get_feature, hopen, hexif, hlat, hlon, hbp,
                  pointFromPair, pointCoordinates]
              rw [hz] at hfeat
              simp only [Option.some.injEq, Except.ok.injEq] at hfeat
              exact ⟨lat, lon, m, rfl, rfl, rfl, hfeat.symm⟩

/-- The feature the pipeline builds from `srcW` when the selectors are
`[Filename, Datetime, Filename]`. -/
def featW : Feature :=
  { bbox := none
    geometry := some [-(79 + 56 / 60 + 55 / 3600), 40 + 26 / 60 + 46 / 3600]
    id := none
    properties := some [("filename", "a.jpg"), ("datetime", "2018")]
    foreign_members := none }

/-- The feature the pipeline builds from `srcW` with no selectors. -/
def featNoProps : Feature :=
  { bbox := none
    geometry := some [-(79 + 56 / 60 + 55 / 3600), 40 + 26 / 60 + 46 / 3600]
    id := none
    properties := some []
    foreign_members := none }

/-! ## Claims -/

/-- C1: for every record whose GPS angle field for a tag is exactly three
rationals `[degrees, minutes, seconds]`, `get_degrees` returns
`degrees + minutes/60 + seconds/3600` (exact arithmetic — no rounding). -/
theorem c1_degrees_formula (reader : Reader) (tag : Tag) (a b c : URational)
    (h : reader tag = some (.Rational [a, b, c])) :
    get_degrees reader tag = .ok (a.to_f64 + b.to_f64 / 60 + c.to_f64 / 3600) := by
  simp [get_degrees, h]

theorem c1_degrees_formula_witness :
    get_degrees readerW Tag.GPSLatitude =
      .ok ((⟨40, 1⟩ : URational).to_f64 + (⟨26, 1⟩ : URational).to_f64 / 60
        + (⟨46, 1⟩ : URational).to_f64 / 3600) :=
  c1_degrees_formula readerW Tag.GPSLatitude _ _ _ rfl

/-- C2: with both magnitude fields readable and both hemisphere reference
fields readable as text, the latitude is negated exactly when the latitude
reference text ends with `"S"`, and the longitude is negated exactly when
the longitude reference text ends with `"W"`; otherwise they equal the
unnegated magnitudes. -/
theorem c2_hemisphere_sign (reader : Reader) (latq lonq : ℚ) (slat slon : String)
    (hlat : get_degrees reader .GPSLatitude = .ok latq)
    (hlatref : get_string reader .GPSLatitudeRef = some (.ok slat))
    (hlon : get_degrees reader .GPSLongitude = .ok lonq)
    (hlonref : get_string reader .GPSLongitudeRef = some (.ok slon)) :
    get_latitude reader = some (.ok (if ends_with slat ("S") then -latq else latq)) ∧
    get_longitude reader = some (.ok (if ends_with slon ("W") then -lonq else lonq)) := by
  constructor
  · simp [get_latitude, hlat, hlatref]
  · simp [get_longitude, hlon, hlonref]

theorem c2_hemisphere_sign_witness :
    get_latitude readerW =
      some (.ok (if ends_with ("N") ("S") then -(40 + 26 / 60 + 46 / 3600 : ℚ)
        else (40 + 26 / 60 + 46 / 3600 : ℚ))) ∧
    get_longitude readerW =
      some (.ok (if ends_with ("W") ("W") then -(79 + 56 / 60 + 55 / 3600 : ℚ)
        else (79 + 56 / 60 + 55 / 3600 : ℚ))) :=
  c2_hemisphere_sign readerW (40 + 26 / 60 + 46 / 3600) (79 + 56 / 60 + 55 / 3600) "N" "W"
    (by simp [get_degrees, readerW, URational.to_f64])
    rfl
    (by simp [get_degrees, readerW, URational.to_f64])
    rfl

/-- C3: when a GPS angle tag is present but its value is a rational
sequence of length other than 3, or not a rational sequence at all,
`get_degrees` returns an `InvalidField` error naming that tag with a
description (and, being a total function into `Except`, neither crashes
nor produces a partial value). -/
theorem c3_invalid_field (reader : Reader) (tag : Tag) (v : ExifValue)
    (hpresent : reader tag = some v)
    (hbad : ∀ dms, v = .Rational dms → dms.length ≠ 3) :
    ∃ msg, get_degrees reader tag = .error (.InvalidField tag msg) := by
  cases v with
  | Rational dms =>
      have hlen := hbad dms rfl
      exact ⟨"expected 3 rationals", by simp [get_degrees, hpresent, hlen]⟩
  | Ascii s => exact ⟨"invalid field type", by simp [get_degrees, hpresent]⟩
  | Other => exact ⟨"invalid field type", by simp [get_degrees, hpresent]⟩

theorem c3_invalid_field_witness :
    ∃ msg, get_degrees readerTwoRationals Tag.GPSLatitude =
      .error (.InvalidField Tag.GPSLatitude msg) :=
  c3_invalid_field readerTwoRationals Tag.GPSLatitude
    (.Rational [⟨1, 1⟩, ⟨2, 1⟩]) rfl
    (by intro dms h; injection h with h2; subst h2; decide)

/-- C4: for a source that opens and decodes, the absence of any one of the
four required GPS tags makes the whole extraction fail with a
`FieldMissing` error identifying that tag (the first one the pipeline
reaches), so no `Feature` is produced for the source.  The four conjuncts
cover the four tags in pipeline order; each hypothesis list records that
processing reached the tag in question. -/
theorem c4_missing_tag (src : Source) (props : List Property) (reader : Reader)
    (hopen : src.openFile = .ok ()) (hexif : src.readExif = .ok reader) :
    (reader .GPSLatitude = none →
      get_feature src props = some (.error (.FieldMissing .GPSLatitude))) ∧
    (∀ q, get_degrees reader .GPSLatitude = .ok q → reader .GPSLatitudeRef = none →
      get_feature src props = some (.error (.FieldMissing .GPSLatitudeRef))) ∧
    (∀ q, get_latitude reader = some (.ok q) → reader .GPSLongitude = none →
      get_feature src props = some (.error (.FieldMissing .GPSLongitude))) ∧
    (∀ q q', get_latitude reader = some (.ok q) →
      get_degrees reader .GPSLongitude = .ok q' → reader .GPSLongitudeRef = none →
      get_feature src props = some (.error (.FieldMissing .GPSLongitudeRef))) := by
  refine ⟨fun hm => ?_, fun q hq hm => ?_, fun q hlat hm => ?_, fun q q' hlat hq hm => ?_⟩
  · simp [get_feature, hopen, hexif, get_latitude, get_degrees, hm]
  · simp [get_feature, hopen, hexif, get_latitude, hq, get_string, hm]
  · simp [get_feature, hopen, hexif, hlat, get_longitude, get_degrees, hm]
  · simp [get_feature, hopen, hexif, hlat, get_longitude, hq, get_string, hm]

theorem c4_missing_tag_witness :
    get_feature srcNoTags [] = some (.error (.FieldMissing .GPSLatitude)) :=
  (c4_missing_tag srcNoTags [] readerEmpty rfl rfl).1 rfl

/-- C5: for every ordered input list in which no source panics, the
aggregator returns (it never aborts on a per-source failure): it appends
exactly the features of the successful sources in input order, emits one
diagnostic per failed source in input order, omits the failed sources, and
when every source fails the resulting feature list is empty. -/
theorem c5_aggregator (props : List Property) (files : List Source)
    (hnoabort : ∀ f ∈ files, get_feature f props ≠ none) :
    processFiles props files =
      some (successFeatures props files, failureDiagnostics props files) ∧
    ((∀ f ∈ files, ∃ e, get_feature f props = some (.error e)) →
      successFeatures props files = []) := by
  refine ⟨processFiles_eq_of_no_abort props files hnoabort, fun hall => ?_⟩
  rw [successFeatures, List.filterMap_eq_nil_iff]
  intro f hf
  obtain ⟨e, he⟩ := hall f hf
  simp [he]

theorem c5_aggregator_witness :
    processFiles [] [srcUnreadable] =
      some (successFeatures [] [srcUnreadable], failureDiagnostics [] [srcUnreadable]) ∧
    ((∀ f ∈ [srcUnreadable], ∃ e, get_feature f [] = some (.error e)) →
      successFeatures [] [srcUnreadable] = []) :=
  c5_aggregator [] [srcUnreadable]
    (by intro f hf; rw [List.mem_singleton] at hf; subst hf; decide)

/-- C6: when the requested property list contains an unrecognized name,
the run exits with no output document, naming an unrecognized requested
name, and the outcome is the same for every input list — no source is
opened or processed. -/
theorem c6_unknown_property_aborts (ps : List String) (name : String)
    (hmem : name ∈ ps) (hunknown : parseProperty name = none) :
    ∃ bad, bad ∈ ps ∧ parseProperty bad = none ∧
      ∀ files : List Source, runMain (some ps) files = some (.exitUnknownProperty bad) := by
  obtain ⟨bad, h1, h2, h3⟩ := parseProperties_first_unknown ps name hmem hunknown
  exact ⟨bad, h1, h2, fun files => by simp [runMain, h3]⟩

theorem c6_unknown_property_aborts_witness :
    ∃ bad, bad ∈ ["filename", "foo"] ∧ parseProperty bad = none ∧
      ∀ files : List Source,
        runMain (some ["filename", "foo"]) files = some (.exitUnknownProperty bad) :=
  c6_unknown_property_aborts ["filename", "foo"] "foo" (by decide) rfl

/-- C7: for every successfully processed source, the feature's property
map (always present) is the one built by applying the selectors in list
order under their canonical names: looking up any name yields the value of
the LAST selector in the list with that canonical name (a later duplicate
overwrites an earlier one), and nothing for names no selector has. -/
theorem c7_property_map (src : Source) (props : List Property) (reader : Reader)
    (feat : Feature) (name : String)
    (hopen : src.openFile = .ok ()) (hexif : src.readExif = .ok reader)
    (hfeat : get_feature src props = some (.ok feat)) :
    ∃ m, feat.properties = some m ∧
      mapLookup m name =
        match lastWithName name props with
        | some p => okValue (propValue src reader p)
        | none => none := by
  obtain ⟨lat, lon, m, hlat, hlon, hbp, hfe⟩ :=
    get_feature_ok_elim src props reader feat hopen hexif hfeat
  refine ⟨m, by rw [hfe], ?_⟩
  have h := buildProps_lookup src reader name props [] m hbp
  cases hlast : lastWithName name props with
  | some p => rw [hlast] at h; simpa using h
  | none => rw [hlast] at h; simpa [mapLookup] using h

theorem c7_property_map_witness :
    ∃ m, featW.properties = some m ∧
      mapLookup m ("filename") =
        match lastWithName ("filename") [Property.Filename, Property.Datetime, Property.Filename] with
        | some p => okValue (propValue srcW readerW p)
        | none => none :=
  c7_property_map srcW [Property.Filename, Property.Datetime, Property.Filename]
    readerW featW ("filename") rfl rfl
    (by
      have h1 : from_utf8 [78] = .ok ("N") := rfl
      have h2 : from_utf8 [87] = .ok ("W") := rfl
      have h3 : from_utf8 [50, 48, 49, 56] = .ok ("2018") := rfl
      have h4 : file_name ("photos/a.jpg") = some ("a.jpg") := rfl
      simp [get_feature, srcW, readerW, get_latitude, get_longitude, get_degrees, get_string,
        h1, h2, h3, h4, URational.to_f64, ends_with, buildProps, propValue, mapInsert,
        pointFromPair, pointCoordinates, featW, Property.to_string]
      intro hS
      exact absurd hS (by decide))

/-- C8: every built feature stores its point geometry's coordinates in
`[longitude, latitude]` axis order, and its property map is present even
when zero properties were requested (in which case it is empty). -/
theorem c8_feature_build (src : Source) (props : List Property) (reader : Reader)
    (lat lon : ℚ) (feat : Feature)
    (hopen : src.openFile = .ok ()) (hexif : src.readExif = .ok reader)
    (hlat : get_latitude reader = some (.ok lat))
    (hlon : get_longitude reader = some (.ok lon))
    (hfeat : get_feature src props = some (.ok feat)) :
    feat.geometry = some [lon, lat] ∧
    ∃ m, feat.properties = some m ∧ (props = [] → m = []) := by
  obtain ⟨lat', lon', m, hlat', hlon', hbp, hfe⟩ :=
    get_feature_ok_elim src props reader feat hopen hexif hfeat
  rw [hlat] at hlat'
  rw [hlon] at hlon'
  injection hlat' with hlat''
  injection hlat'' with hlat''
  injection hlon' with hlon''
  injection hlon'' with hlon''
  subst hlat''
  subst hlon''
  refine ⟨by rw [hfe], m, by rw [hfe], fun hp => ?_⟩
  subst hp
  simp [buildProps] at hbp
  exact hbp

theorem c8_feature_build_witness :
    featNoProps.geometry =
      some [-(79 + 56 / 60 + 55 / 3600), 40 + 26 / 60 + 46 / 3600] ∧
    ∃ m, featNoProps.properties = some m ∧ (([] : List Property) = [] → m = []) :=
  c8_feature_build srcW [] readerW
    (40 + 26 / 60 + 46 / 3600) (-(79 + 56 / 60 + 55 / 3600)) featNoProps rfl rfl
    (by
      have h1 : from_utf8 [78] = .ok ("N") := rfl
      simp [get_latitude, get_degrees, get_string, readerW, URational.to_f64, ends_with, h1]
      intro hS
      exact absurd hS (by decide))
    (by
      have h2 : from_utf8 [87] = .ok ("W") := rfl
      simp [get_longitude, get_degrees, get_string, readerW, URational.to_f64, ends_with, h2])
    (by
      have h1 : from_utf8 [78] = .ok ("N") := rfl
      have h2 : from_utf8 [87] = .ok ("W") := rfl
      simp [get_feature, srcW, readerW, get_latitude, get_longitude, get_degrees, get_string,
        h1, h2, URational.to_f64, ends_with, buildProps,
        pointFromPair, pointCoordinates, featNoProps]
      intro hS
      exact absurd hS (by decide))

/-- C9 counterexample: the claim says Filename extraction never fails for
any path, including paths with no base name component — but for the
source identifier `".."` (no base name: `Path::file_name` is `None`) the
source's `file_name().unwrap()` panics, so the pipeline aborts instead of
producing text or even an error. -/
theorem c9_filename_counterexample :
    get_feature srcDotDot [Property.Filename] = none := by
  have h1 : from_utf8 [78] = .ok ("N") := rfl
  have h2 : from_utf8 [87] = .ok ("W") := rfl
  have h4 : file_name ("..") = none := rfl
  simp [get_feature, srcDotDot, readerW, get_latitude, get_longitude, get_degrees, get_string,
    h1, h2, h4, URational.to_f64, ends_with, buildProps, propValue]

/-- C9 (amended): for every source identifier whose path has a base name
component, extracting the Filename property yields that base name verbatim
and never fails; a path without a base name component makes the unwrap in
the source panic. -/
theorem c9_filename_property (src : Source) (reader : Reader) (n : String)
    (h : file_name src.path = some n) :
    propValue src reader .Filename = some (.ok n) := by
  simp [propValue, h]

theorem c9_filename_property_witness :
    propValue srcW readerW .Filename = some (.ok ("a.jpg")) :=
  c9_filename_property srcW readerW ("a.jpg") rfl

/-- C10 counterexample: the claim says the text lookup is total — decoded
text or an error, never a panic — even for an ASCII value with zero
component strings; but on such a field the source's unconditional `s[0]`
index panics. -/
theorem c10_get_string_counterexample :
    get_string readerEmptyAscii .DateTimeOriginal = none := rfl

/-- C10 (amended): whenever the field is present as an ASCII value with at
least one component string, `get_string` returns normally — the UTF-8
decoding of the first component, which is either the decoded text or a
`Utf8Error`; only an ASCII value with zero components panics. -/
theorem c10_get_string_total (reader : Reader) (tag : Tag) (b : List Nat)
    (rest : List (List Nat)) (h : reader tag = some (.Ascii (b :: rest))) :
    get_string reader tag = some (from_utf8 b) := by
  simp [get_string, h]

theorem c10_get_string_total_witness :
    get_string readerW .GPSLatitudeRef = some (from_utf8 [78]) :=
  c10_get_string_total readerW .GPSLatitudeRef [78] [] rfl
